import Mathlib

/-!
Shallow embedding of the xinput1_3 input-bridge shim
(`dlls/xinput1_3/main.c`) and proofs about its state update, index
remapping, capability reporting and keystroke synthesis logic.

Machine integers are modelled as `Nat` (unsigned fields) and `Int`
(signed fields), with explicit wrapping (`% 2 ^ 32`, `wrap16`) at the
points where the C code can overflow or truncate.  Network transport,
socket lifecycle and the critical-section locking are not modelled:
every operation below is the body of the corresponding C function as
executed once the lock is held.
-/

namespace XInputShim

/-! ### Platform constants (from the platform headers used by the code) -/

def XUSER_MAX_COUNT : Nat := 4
def XUSER_INDEX_ANY : Nat := 255

def ERROR_SUCCESS : Nat := 0
def ERROR_NOT_SUPPORTED : Nat := 50
def ERROR_BAD_ARGUMENTS : Nat := 160
def ERROR_DEVICE_NOT_CONNECTED : Nat := 1167
def ERROR_EMPTY : Nat := 4306

def XINPUT_GAMEPAD_DPAD_UP : Nat := 0x0001
def XINPUT_GAMEPAD_DPAD_DOWN : Nat := 0x0002
def XINPUT_GAMEPAD_DPAD_LEFT : Nat := 0x0004
def XINPUT_GAMEPAD_DPAD_RIGHT : Nat := 0x0008
def XINPUT_GAMEPAD_START : Nat := 0x0010
def XINPUT_GAMEPAD_BACK : Nat := 0x0020
def XINPUT_GAMEPAD_LEFT_THUMB : Nat := 0x0040
def XINPUT_GAMEPAD_RIGHT_THUMB : Nat := 0x0080
def XINPUT_GAMEPAD_LEFT_SHOULDER : Nat := 0x0100
def XINPUT_GAMEPAD_RIGHT_SHOULDER : Nat := 0x0200
def XINPUT_GAMEPAD_A : Nat := 0x1000
def XINPUT_GAMEPAD_B : Nat := 0x2000
def XINPUT_GAMEPAD_X : Nat := 0x4000
def XINPUT_GAMEPAD_Y : Nat := 0x8000

/-- Defined locally in main.c, used only by XInputGetStateEx. -/
def XINPUT_GAMEPAD_GUIDE : Nat := 0x0400

def XINPUT_DEVTYPE_GAMEPAD : Nat := 0x01
def XINPUT_DEVSUBTYPE_GAMEPAD : Nat := 0x01
def XINPUT_FLAG_GAMEPAD : Nat := 0x00000001

def XINPUT_KEYSTROKE_KEYDOWN : Nat := 0x0001
def XINPUT_KEYSTROKE_KEYUP : Nat := 0x0002

def VK_PAD_A : Nat := 0x5800
def VK_PAD_B : Nat := 0x5801
def VK_PAD_X : Nat := 0x5802
def VK_PAD_Y : Nat := 0x5803
def VK_PAD_RSHOULDER : Nat := 0x5804
def VK_PAD_LSHOULDER : Nat := 0x5805
def VK_PAD_LTRIGGER : Nat := 0x5806
def VK_PAD_RTRIGGER : Nat := 0x5807
def VK_PAD_DPAD_UP : Nat := 0x5810
def VK_PAD_DPAD_DOWN : Nat := 0x5811
def VK_PAD_DPAD_LEFT : Nat := 0x5812
def VK_PAD_DPAD_RIGHT : Nat := 0x5813
def VK_PAD_START : Nat := 0x5814
def VK_PAD_BACK : Nat := 0x5815
def VK_PAD_LTHUMB_PRESS : Nat := 0x5816
def VK_PAD_RTHUMB_PRESS : Nat := 0x5817
def VK_PAD_LTHUMB_UP : Nat := 0x5820
def VK_PAD_RTHUMB_UP : Nat := 0x5830

/-! ### Button-bit indices of the wire protocol (main.c lines 57-68) -/

def IDX_BUTTON_A : Nat := 0
def IDX_BUTTON_B : Nat := 1
def IDX_BUTTON_X : Nat := 2
def IDX_BUTTON_Y : Nat := 3
def IDX_BUTTON_L1 : Nat := 4
def IDX_BUTTON_R1 : Nat := 5
def IDX_BUTTON_L2 : Nat := 10
def IDX_BUTTON_R2 : Nat := 11
def IDX_BUTTON_SELECT : Nat := 6
def IDX_BUTTON_START : Nat := 7
def IDX_BUTTON_L3 : Nat := 8
def IDX_BUTTON_R3 : Nat := 9

/-! ### Data model -/

/-- XINPUT_GAMEPAD: buttons bitmask (WORD), trigger bytes (BYTE), four
signed 16-bit thumb axes (SHORT). -/
structure XINPUT_GAMEPAD where
  wButtons : Nat
  bLeftTrigger : Nat
  bRightTrigger : Nat
  sThumbLX : Int
  sThumbLY : Int
  sThumbRX : Int
  sThumbRY : Int
deriving DecidableEq

def XINPUT_GAMEPAD.zero : XINPUT_GAMEPAD :=
  { wButtons := 0, bLeftTrigger := 0, bRightTrigger := 0,
    sThumbLX := 0, sThumbLY := 0, sThumbRX := 0, sThumbRY := 0 }

/-- XINPUT_STATE: 32-bit packet counter plus a gamepad sample. -/
structure XINPUT_STATE where
  dwPacketNumber : Nat
  Gamepad : XINPUT_GAMEPAD
deriving DecidableEq

def XINPUT_STATE.zero : XINPUT_STATE := { dwPacketNumber := 0, Gamepad := .zero }

structure XINPUT_VIBRATION where
  wLeftMotorSpeed : Nat
  wRightMotorSpeed : Nat
deriving DecidableEq

/-- XINPUT_CAPABILITIES.  The C field `Type` is a reserved word in Lean,
so it is rendered `Type_`. -/
structure XINPUT_CAPABILITIES where
  Type_ : Nat
  SubType : Nat
  Flags : Nat
  Gamepad : XINPUT_GAMEPAD
  Vibration : XINPUT_VIBRATION
deriving DecidableEq

def XINPUT_CAPABILITIES.zero : XINPUT_CAPABILITIES :=
  { Type_ := 0, SubType := 0, Flags := 0, Gamepad := .zero, Vibration := ⟨0, 0⟩ }

/-- The three fields of XINPUT_CAPABILITIES_EX that XInputGetCapabilitiesEx
writes (the remaining fields keep whatever the caller passed in). -/
structure XINPUT_CAPABILITIES_EX where
  Capabilities : XINPUT_CAPABILITIES
  VendorId : Nat
  ProductId : Nat
deriving DecidableEq

structure XINPUT_KEYSTROKE where
  VirtualKey : Nat
  Unicode : Nat
  Flags : Nat
  UserIndex : Nat
  HidCode : Nat
deriving DecidableEq

/-- struct xinput_controller (minus the critical section, which only
serializes access and carries no data). -/
structure xinput_controller where
  caps : XINPUT_CAPABILITIES
  state : XINPUT_STATE
  last_keystroke : XINPUT_GAMEPAD
  enabled : Bool
  connected : Bool
  id : Int
deriving DecidableEq

/-- The statically allocated controller: all fields zero, enabled and
connected false, id 0 (main.c lines 83-97). -/
def controller_initial : xinput_controller :=
  { caps := .zero, state := .zero, last_keystroke := .zero,
    enabled := false, connected := false, id := 0 }

/-- Whole-runtime state: the controller plus the file-scope remapping
variable `xinput_min_index` (initially 3, main.c line 104). -/
structure Sys where
  ctrl : xinput_controller
  xinput_min_index : Nat
deriving DecidableEq

def sys_initial : Sys := { ctrl := controller_initial, xinput_min_index := 3 }

/-! ### controller_check_caps / controller_init (main.c lines 180-218) -/

def sizeof_BYTE : Nat := 1
def sizeof_SHORT : Nat := 2

/-- The value of the C expression `(1u << (sizeof(field) + 1)) - 1` used by
`controller_check_caps` for every trigger/axis field. -/
def caps_range_value (size : Nat) : Nat := (1 <<< (size + 1)) - 1

/-- The capabilities record built by `controller_check_caps`: memset to
zero, then buttons all-ones and each trigger/axis field set to
`(1u << (sizeof(field) + 1)) - 1`, type and subtype gamepad. -/
def controller_check_caps_result : XINPUT_CAPABILITIES :=
  { Type_ := XINPUT_DEVTYPE_GAMEPAD
    SubType := XINPUT_DEVSUBTYPE_GAMEPAD
    Flags := 0
    Gamepad :=
      { wButtons := 0xffff
        bLeftTrigger := caps_range_value sizeof_BYTE
        bRightTrigger := caps_range_value sizeof_BYTE
        sThumbLX := (caps_range_value sizeof_SHORT : Nat)
        sThumbLY := (caps_range_value sizeof_SHORT : Nat)
        sThumbRX := (caps_range_value sizeof_SHORT : Nat)
        sThumbRY := (caps_range_value sizeof_SHORT : Nat) }
    Vibration := ⟨0, 0⟩ }

/-- controller_init: zero the state, fill capabilities, mark connected and
enabled (main.c lines 212-218). -/
def controller_init (c : xinput_controller) : xinput_controller :=
  { c with
    state := .zero
    caps := controller_check_caps_result
    connected := true
    enabled := true }

/-! ### GAMEPAD_STATE frame decoding (controller_update_state, lines 220-288) -/

/-- The decoded fields of a GAMEPAD_STATE datagram: status byte at offset
1, little-endian int32 id at offset 2, 16-bit button pattern at offset 6
(bits 0-11 are meaningful), signed dpad byte at offset 8, four
little-endian signed 16-bit axes at offsets 9, 11, 13, 15. -/
structure GAMEPAD_STATE_frame where
  status : Nat
  gamepad_id : Int
  buttons : Nat
  dpad : Int
  lx : Int
  ly : Int
  rx : Int
  ry : Int
deriving DecidableEq

/-- Truncation of an `int` value to a signed 16-bit `short`, as done by the
assignments to the SHORT thumb-axis fields. -/
def wrap16 (v : Int) : Int := (v + 32768) % 65536 - 32768

/-- The `switch (i)` in the button loop: logical flag for wire bit `i`. -/
def button_flag (i : Nat) : Nat :=
  if i = IDX_BUTTON_A then XINPUT_GAMEPAD_A
  else if i = IDX_BUTTON_B then XINPUT_GAMEPAD_B
  else if i = IDX_BUTTON_X then XINPUT_GAMEPAD_X
  else if i = IDX_BUTTON_Y then XINPUT_GAMEPAD_Y
  else if i = IDX_BUTTON_L1 then XINPUT_GAMEPAD_LEFT_SHOULDER
  else if i = IDX_BUTTON_R1 then XINPUT_GAMEPAD_RIGHT_SHOULDER
  else if i = IDX_BUTTON_SELECT then XINPUT_GAMEPAD_BACK
  else if i = IDX_BUTTON_START then XINPUT_GAMEPAD_START
  else if i = IDX_BUTTON_L3 then XINPUT_GAMEPAD_LEFT_THUMB
  else if i = IDX_BUTTON_R3 then XINPUT_GAMEPAD_RIGHT_THUMB
  else 0

/-- The `for (i = 0; i < 10; i++)` loop ORing in a flag for each set wire
bit. -/
def buttons_fold (buttons : Nat) : Nat :=
  (List.range 10).foldl (fun acc i => if buttons.testBit i then acc ||| button_flag i else acc) 0

/-- The `switch (dpad)` decode: flags ORed onto the button mask; any value
outside 0-7 leaves the d-pad neutral. -/
def dpad_flags (dpad : Int) : Nat :=
  if dpad = 0 then XINPUT_GAMEPAD_DPAD_UP
  else if dpad = 1 then XINPUT_GAMEPAD_DPAD_UP ||| XINPUT_GAMEPAD_DPAD_RIGHT
  else if dpad = 2 then XINPUT_GAMEPAD_DPAD_RIGHT
  else if dpad = 3 then XINPUT_GAMEPAD_DPAD_RIGHT ||| XINPUT_GAMEPAD_DPAD_DOWN
  else if dpad = 4 then XINPUT_GAMEPAD_DPAD_DOWN
  else if dpad = 5 then XINPUT_GAMEPAD_DPAD_DOWN ||| XINPUT_GAMEPAD_DPAD_LEFT
  else if dpad = 6 then XINPUT_GAMEPAD_DPAD_LEFT
  else if dpad = 7 then XINPUT_GAMEPAD_DPAD_LEFT ||| XINPUT_GAMEPAD_DPAD_UP
  else 0

/-- controller_update_state (main.c lines 220-288), as a function of the
decoded frame and the controller record.  The early-return branch clears
`connected` and memsets the whole XINPUT_STATE; the accepted branch
rebuilds the gamepad sample and bumps the 32-bit packet counter. -/
def controller_update_state (f : GAMEPAD_STATE_frame) (c : xinput_controller) :
    xinput_controller :=
  if f.status ≠ 1 ∨ f.gamepad_id ≠ c.id then
    { c with connected := false, state := .zero }
  else
    { c with state :=
      { dwPacketNumber := (c.state.dwPacketNumber + 1) % 2 ^ 32
        Gamepad :=
          { wButtons := buttons_fold f.buttons ||| dpad_flags f.dpad
            bLeftTrigger := if f.buttons.testBit 10 then 255 else 0
            bRightTrigger := if f.buttons.testBit 11 then 255 else 0
            sThumbLX := f.lx
            sThumbLY := wrap16 (-f.ly)
            sThumbRX := f.rx
            sThumbRY := wrap16 (-f.ry) } } }

/-- Reader-thread handling of a GET_GAMEPAD reply (main.c lines 323-339):
positive id stores it and initializes the controller when not yet
connected; id 0 clears id and connected; negative ids fall through. -/
def recv_get_gamepad (gamepad_id : Int) (c : xinput_controller) : xinput_controller :=
  if 0 < gamepad_id then
    let c1 := { c with id := gamepad_id }
    if c1.connected = false then controller_init c1 else c1
  else if gamepad_id = 0 then
    { c with id := 0, connected := false }
  else c

/-! ### API facade (lines 381-472, 663-722) -/

/-- controller_is_connected (main.c lines 381-388). -/
def controller_is_connected (index : Nat) (c : xinput_controller) : Bool :=
  index == 0 && c.connected

/-- xinput_get_state (main.c lines 435-450), returning the status code, the
copied-out state on success, and the runtime state after the
`xinput_min_index` update.  The `state != NULL` precondition is assumed
(the out-buffer is modelled by the `Option` result). -/
def xinput_get_state (index : Nat) (s : Sys) : Nat × Option XINPUT_STATE × Sys :=
  if XUSER_MAX_COUNT ≤ index then (ERROR_BAD_ARGUMENTS, none, s)
  else
    let m := if index < s.xinput_min_index then index else s.xinput_min_index
    let index2 := if index = m then 0 else index
    let s' : Sys := { ctrl := s.ctrl, xinput_min_index := m }
    if controller_is_connected index2 s'.ctrl then (ERROR_SUCCESS, some s'.ctrl.state, s')
    else (ERROR_DEVICE_NOT_CONNECTED, none, s')

/-- XInputGetState (main.c lines 452-465): xinput_get_state plus stripping
the GUIDE bit from the copied-out buttons. -/
def XInputGetState (index : Nat) (s : Sys) : Nat × Option XINPUT_STATE × Sys :=
  match xinput_get_state index s with
  | (ret, st?, s') =>
    if ret = ERROR_SUCCESS then
      (ret, st?.map (fun st =>
        { st with Gamepad :=
          { st.Gamepad with wButtons := st.Gamepad.wButtons &&& (0xffff ^^^ XINPUT_GAMEPAD_GUIDE) } }), s')
    else (ret, st?, s')

/-- XInputGetStateEx (main.c lines 467-472). -/
def XInputGetStateEx (index : Nat) (s : Sys) : Nat × Option XINPUT_STATE × Sys :=
  xinput_get_state index s

/-- XInputSetState (main.c lines 421-431): validates the raw index with no
remapping, then silently succeeds. -/
def XInputSetState (index : Nat) (s : Sys) : Nat :=
  if XUSER_MAX_COUNT ≤ index then ERROR_BAD_ARGUMENTS
  else if controller_is_connected index s.ctrl then ERROR_SUCCESS
  else ERROR_DEVICE_NOT_CONNECTED

/-- XInputEnable (main.c lines 407-419): no-op unless connected. -/
def xinput_enable (enable : Bool) (c : xinput_controller) : xinput_controller :=
  if c.connected then { c with enabled := enable } else c

/-- controller_destroy (main.c lines 198-210): resets xinput_min_index to 3
and clears the enabled/connected flags (socket teardown not modelled). -/
def controller_destroy (s : Sys) : Sys :=
  { ctrl := { s.ctrl with enabled := false, connected := false }, xinput_min_index := 3 }

/-! ### Keystroke synthesizer (main.c lines 474-671) -/

def JS_STATE_OFF : Nat := 0
def JS_STATE_LOW : Nat := 1
def JS_STATE_HIGH : Nat := 2

/-- joystick_state (main.c lines 478-483). -/
def joystick_state (value : Int) : Nat :=
  if 20000 < value then JS_STATE_HIGH
  else if value < -20000 then JS_STATE_LOW
  else JS_STATE_OFF

/-- js_vk_offs (main.c lines 485-505), with the same branch structure. -/
def js_vk_offs (x y : Nat) : Nat :=
  if y = JS_STATE_OFF then
    if x = JS_STATE_LOW then 3 else 2
  else if y = JS_STATE_HIGH then
    if x = JS_STATE_OFF then 0
    else if x = JS_STATE_LOW then 4
    else 5
  else
    if x = JS_STATE_OFF then 1
    else if x = JS_STATE_LOW then 7
    else 6

/-- The local `cur_vk` / `last_vk` computation in check_joystick_keystroke:
zero when both axes quantize to OFF, otherwise the per-stick base plus the
direction offset. -/
def stick_vk (x y : Int) (base_vk : Nat) : Nat :=
  if joystick_state x ≠ JS_STATE_OFF ∨ joystick_state y ≠ JS_STATE_OFF then
    base_vk + js_vk_offs (joystick_state x) (joystick_state y)
  else 0

/-- check_joystick_keystroke (main.c lines 507-559): returns the status
code, the produced event if any, and the new values of the `last_x` /
`last_y` locations. -/
def check_joystick_keystroke (cur_x cur_y last_x last_y : Int) (base_vk : Nat) :
    Nat × Option XINPUT_KEYSTROKE × Int × Int :=
  if stick_vk cur_x cur_y base_vk ≠ stick_vk last_x last_y base_vk then
    if stick_vk last_x last_y base_vk ≠ 0 then
      (ERROR_SUCCESS,
       some { VirtualKey := stick_vk last_x last_y base_vk, Unicode := 0,
              Flags := XINPUT_KEYSTROKE_KEYUP, UserIndex := 0, HidCode := 0 },
       0, 0)
    else
      (ERROR_SUCCESS,
       some { VirtualKey := stick_vk cur_x cur_y base_vk, Unicode := 0,
              Flags := XINPUT_KEYSTROKE_KEYDOWN, UserIndex := 0, HidCode := 0 },
       cur_x, cur_y)
  else (ERROR_EMPTY, none, cur_x, cur_y)

/-- trigger_is_on (main.c lines 561-564). -/
def trigger_is_on (value : Nat) : Bool := 30 < value

/-- The ordered button table of check_for_keystroke (main.c lines 572-592);
the GUIDE button is deliberately absent. -/
def keystroke_buttons : List (Nat × Nat) :=
  [ (XINPUT_GAMEPAD_DPAD_UP, VK_PAD_DPAD_UP)
  , (XINPUT_GAMEPAD_DPAD_DOWN, VK_PAD_DPAD_DOWN)
  , (XINPUT_GAMEPAD_DPAD_LEFT, VK_PAD_DPAD_LEFT)
  , (XINPUT_GAMEPAD_DPAD_RIGHT, VK_PAD_DPAD_RIGHT)
  , (XINPUT_GAMEPAD_START, VK_PAD_START)
  , (XINPUT_GAMEPAD_BACK, VK_PAD_BACK)
  , (XINPUT_GAMEPAD_LEFT_THUMB, VK_PAD_LTHUMB_PRESS)
  , (XINPUT_GAMEPAD_RIGHT_THUMB, VK_PAD_RTHUMB_PRESS)
  , (XINPUT_GAMEPAD_LEFT_SHOULDER, VK_PAD_LSHOULDER)
  , (XINPUT_GAMEPAD_RIGHT_SHOULDER, VK_PAD_RSHOULDER)
  , (XINPUT_GAMEPAD_A, VK_PAD_A)
  , (XINPUT_GAMEPAD_B, VK_PAD_B)
  , (XINPUT_GAMEPAD_X, VK_PAD_X)
  , (XINPUT_GAMEPAD_Y, VK_PAD_Y) ]

/-- The button scan of check_for_keystroke: the first table entry whose
masked bit differs between the current and last-delivered button masks. -/
def find_changed_button (cur last : Nat) : Option (Nat × Nat) :=
  keystroke_buttons.find? (fun p => (cur &&& p.1) != (last &&& p.1))

/-- check_for_keystroke (main.c lines 566-661) as a function of the current
pad sample and the last_keystroke sample, returning the status code, the
produced event if any, and the updated last_keystroke sample. -/
def check_for_keystroke (cur last : XINPUT_GAMEPAD) :
    Nat × Option XINPUT_KEYSTROKE × XINPUT_GAMEPAD :=
  match find_changed_button cur.wButtons last.wButtons with
  | some (mask, vk) =>
    if cur.wButtons &&& mask ≠ 0 then
      (ERROR_SUCCESS,
       some { VirtualKey := vk, Unicode := 0, Flags := XINPUT_KEYSTROKE_KEYDOWN,
              UserIndex := 0, HidCode := 0 },
       { last with wButtons := last.wButtons ||| mask })
    else
      (ERROR_SUCCESS,
       some { VirtualKey := vk, Unicode := 0, Flags := XINPUT_KEYSTROKE_KEYUP,
              UserIndex := 0, HidCode := 0 },
       { last with wButtons := last.wButtons &&& (0xffff ^^^ mask) })
  | none =>
    if (trigger_is_on cur.bLeftTrigger != trigger_is_on last.bLeftTrigger) = true then
      (ERROR_SUCCESS,
       some { VirtualKey := VK_PAD_LTRIGGER, Unicode := 0,
              Flags := (if trigger_is_on cur.bLeftTrigger then XINPUT_KEYSTROKE_KEYDOWN
                        else XINPUT_KEYSTROKE_KEYUP),
              UserIndex := 0, HidCode := 0 },
       { last with bLeftTrigger := cur.bLeftTrigger })
    else if (trigger_is_on cur.bRightTrigger != trigger_is_on last.bRightTrigger) = true then
      (ERROR_SUCCESS,
       some { VirtualKey := VK_PAD_RTRIGGER, Unicode := 0,
              Flags := (if trigger_is_on cur.bRightTrigger then XINPUT_KEYSTROKE_KEYDOWN
                        else XINPUT_KEYSTROKE_KEYUP),
              UserIndex := 0, HidCode := 0 },
       { last with bRightTrigger := cur.bRightTrigger })
    else
      match check_joystick_keystroke cur.sThumbLX cur.sThumbLY
              last.sThumbLX last.sThumbLY VK_PAD_LTHUMB_UP with
      | (ret, ks, lx', ly') =>
        let last1 := { last with sThumbLX := lx', sThumbLY := ly' }
        if ret = ERROR_SUCCESS then (ret, ks, last1)
        else
          match check_joystick_keystroke cur.sThumbRX cur.sThumbRY
                  last1.sThumbRX last1.sThumbRY VK_PAD_RTHUMB_UP with
          | (ret2, ks2, rx', ry') =>
            (ret2, ks2, { last1 with sThumbRX := rx', sThumbRY := ry' })

/-- XInputGetKeystroke (main.c lines 663-671): validates the raw index
(XUSER_INDEX_ANY maps to 0 for the connectivity check only), then runs the
synthesizer.  The new runtime state carries the updated last_keystroke. -/
def XInputGetKeystroke (index : Nat) (s : Sys) :
    Nat × Option XINPUT_KEYSTROKE × Sys :=
  if XUSER_MAX_COUNT ≤ index ∧ index ≠ XUSER_INDEX_ANY then (ERROR_BAD_ARGUMENTS, none, s)
  else if controller_is_connected (if index ≠ XUSER_INDEX_ANY then index else 0) s.ctrl then
    match check_for_keystroke s.ctrl.state.Gamepad s.ctrl.last_keystroke with
    | (ret, ks, last') =>
      (ret, ks, { ctrl := { s.ctrl with last_keystroke := last' }
                  xinput_min_index := s.xinput_min_index })
  else (ERROR_DEVICE_NOT_CONNECTED, none, s)

/-- XInputGetCapabilitiesEx (main.c lines 700-722).  The `unk` first
parameter is unused by the body and omitted. -/
def XInputGetCapabilitiesEx (index flags : Nat) (s : Sys) :
    Nat × Option XINPUT_CAPABILITIES_EX :=
  if XUSER_MAX_COUNT ≤ index then (ERROR_BAD_ARGUMENTS, none)
  else if controller_is_connected index s.ctrl then
    if flags &&& XINPUT_FLAG_GAMEPAD ≠ 0 ∧ s.ctrl.caps.SubType ≠ XINPUT_DEVSUBTYPE_GAMEPAD then
      (ERROR_DEVICE_NOT_CONNECTED, none)
    else (ERROR_SUCCESS, some { Capabilities := s.ctrl.caps, VendorId := 0x045E, ProductId := 0x02A1 })
  else (ERROR_DEVICE_NOT_CONNECTED, none)

/-! ### Runtime transition system

Each constructor is one mutation of the shared snapshot or of
`xinput_min_index` that the code can perform: the two reader-thread frame
handlers (a GAMEPAD_STATE frame is dispatched only while connected,
main.c line 347), the GetState family, GetKeystroke, XInputEnable and the
detach-time controller_destroy.  The remaining entry points
(XInputSetState, the capability/battery/dsound queries) are read-only. -/

inductive Step : Sys → Sys → Prop
  | recvGetGamepad (gamepad_id : Int) (s : Sys) :
      Step s { ctrl := recv_get_gamepad gamepad_id s.ctrl
               xinput_min_index := s.xinput_min_index }
  | recvGamepadState (f : GAMEPAD_STATE_frame) (s : Sys)
      (h : s.ctrl.connected = true) :
      Step s { ctrl := controller_update_state f s.ctrl
               xinput_min_index := s.xinput_min_index }
  | getState (index : Nat) (s : Sys) : Step s (xinput_get_state index s).2.2
  | getKeystroke (index : Nat) (s : Sys) : Step s (XInputGetKeystroke index s).2.2
  | enable (b : Bool) (s : Sys) :
      Step s { ctrl := xinput_enable b s.ctrl, xinput_min_index := s.xinput_min_index }
  | destroy (s : Sys) : Step s (controller_destroy s)

def Reachable (s : Sys) : Prop := Relation.ReflTransGen Step sys_initial s

/-! ### Shared demonstration states -/

/-- The controller right after the provider announced gamepad id 42. -/
def ctrl_connected : xinput_controller := recv_get_gamepad 42 controller_initial

/-- The runtime right after that announcement (no GetState call yet). -/
def sys_connected : Sys := { ctrl := ctrl_connected, xinput_min_index := 3 }

/-! ### Helper lemmas -/

lemma update_state_caps (f : GAMEPAD_STATE_frame) (c : xinput_controller) :
    (controller_update_state f c).caps = c.caps := by
  unfold controller_update_state; split <;> rfl

lemma update_state_id (f : GAMEPAD_STATE_frame) (c : xinput_controller) :
    (controller_update_state f c).id = c.id := by
  unfold controller_update_state; split <;> rfl

lemma update_state_connected (f : GAMEPAD_STATE_frame) (c : xinput_controller) :
    (controller_update_state f c).connected = true → c.connected = true := by
  unfold controller_update_state; split
  · intro h; exact absurd h (by simp)
  · exact fun h => h

lemma recv_get_gamepad_caps (gamepad_id : Int) (c : xinput_controller) :
    (recv_get_gamepad gamepad_id c).caps = c.caps ∨
    (recv_get_gamepad gamepad_id c).caps = controller_check_caps_result := by
  unfold recv_get_gamepad controller_init
  dsimp only
  split_ifs <;> simp

lemma recv_get_gamepad_connected_caps (gamepad_id : Int) (c : xinput_controller) :
    (recv_get_gamepad gamepad_id c).connected = true →
    (recv_get_gamepad gamepad_id c).caps = controller_check_caps_result ∨
    (c.connected = true ∧ (recv_get_gamepad gamepad_id c).caps = c.caps) := by
  unfold recv_get_gamepad controller_init
  dsimp only
  split_ifs with h1 h2 h3
  · intro _; left; rfl
  · intro _; right
    exact ⟨by simpa using h2, rfl⟩
  · intro h; exact absurd h (by simp)
  · intro h; exact .inr ⟨h, rfl⟩

lemma xinput_get_state_ctrl (index : Nat) (s : Sys) :
    ((xinput_get_state index s).2.2).ctrl = s.ctrl := by
  unfold xinput_get_state
  split
  · rfl
  · dsimp only
    split_ifs <;> rfl

lemma getKeystroke_ctrl (index : Nat) (s : Sys) :
    ((XInputGetKeystroke index s).2.2).ctrl.caps = s.ctrl.caps ∧
    ((XInputGetKeystroke index s).2.2).ctrl.connected = s.ctrl.connected := by
  unfold XInputGetKeystroke
  split_ifs <;> exact ⟨rfl, rfl⟩

lemma enable_caps (b : Bool) (c : xinput_controller) :
    (xinput_enable b c).caps = c.caps ∧ (xinput_enable b c).connected = c.connected := by
  unfold xinput_enable
  split <;> exact ⟨rfl, rfl⟩

/-- One characterization of xinput_get_state on an in-range index: queries
at or below the remembered minimum take over as effective index 0, queries
above it report disconnected; the minimum becomes the smaller of the two. -/
lemma xinput_get_state_eq (index : Nat) (s : Sys) (h : index < 4) :
    xinput_get_state index s =
      ((if index ≤ s.xinput_min_index then
          (if s.ctrl.connected then ERROR_SUCCESS else ERROR_DEVICE_NOT_CONNECTED)
        else ERROR_DEVICE_NOT_CONNECTED),
       (if index ≤ s.xinput_min_index ∧ s.ctrl.connected = true then some s.ctrl.state else none),
       { ctrl := s.ctrl, xinput_min_index := min index s.xinput_min_index }) := by
  have h4 : ¬ (XUSER_MAX_COUNT ≤ index) := by
    simp only [XUSER_MAX_COUNT]; omega
  unfold xinput_get_state controller_is_connected
  rw [if_neg h4]
  dsimp only
  rcases Nat.lt_trichotomy index s.xinput_min_index with hlt | heq | hgt
  · simp only [if_pos hlt, if_pos rfl, Nat.min_eq_left (Nat.le_of_lt hlt),
      if_pos (Nat.le_of_lt hlt)]
    cases hc : s.ctrl.connected <;> simp [hc, Nat.le_of_lt hlt]
  · subst heq
    simp only [Nat.lt_irrefl, if_neg, ite_false, if_pos rfl, Nat.min_self, Nat.le_refl, if_true]
    cases hc : s.ctrl.connected <;> simp [hc]
  · have h1 : ¬ (index < s.xinput_min_index) := by omega
    have h2 : ¬ (index ≤ s.xinput_min_index) := by omega
    have h3 : index ≠ s.xinput_min_index := by omega
    have h0 : (index == 0) = false := by
      have : index ≠ 0 := by omega
      simpa using this
    simp only [if_neg h1, if_neg h3, if_neg h2, Nat.min_eq_right (Nat.le_of_lt hgt), h0]
    simp [h2]

/-! ### Claim theorems -/

/-- C8: in the keystroke synthesizer's quantizers, a trigger is on exactly
when its byte value strictly exceeds 30 (30 off, 31 on), and an axis
quantizes to OFF on [-20000, 20000], to LOW at -20001 and below, and to
HIGH at 20001 and above. -/
theorem trigger_axis_thresholds :
    (∀ v : Nat, trigger_is_on v = true ↔ 30 < v) ∧
    trigger_is_on 30 = false ∧ trigger_is_on 31 = true ∧
    (∀ v : Int, joystick_state v = JS_STATE_OFF ↔ (-20000 ≤ v ∧ v ≤ 20000)) ∧
    (∀ v : Int, joystick_state v = JS_STATE_LOW ↔ v ≤ -20001) ∧
    (∀ v : Int, joystick_state v = JS_STATE_HIGH ↔ 20001 ≤ v) ∧
    joystick_state (-20000) = JS_STATE_OFF ∧ joystick_state 20000 = JS_STATE_OFF ∧
    joystick_state (-20001) = JS_STATE_LOW ∧ joystick_state 20001 = JS_STATE_HIGH := by
  refine ⟨?_, by decide, by decide, ?_, ?_, ?_, by decide, by decide, by decide, by decide⟩
  · intro v; simp [trigger_is_on]
  · intro v
    simp only [joystick_state, JS_STATE_OFF, JS_STATE_LOW, JS_STATE_HIGH]
    split_ifs with h1 h2 <;> simp <;> omega
  · intro v
    simp only [joystick_state, JS_STATE_OFF, JS_STATE_LOW, JS_STATE_HIGH]
    split_ifs with h1 h2 <;> simp <;> omega
  · intro v
    simp only [joystick_state, JS_STATE_OFF, JS_STATE_LOW, JS_STATE_HIGH]
    split_ifs with h1 h2 <;> simp <;> omega

/-- C1 counterexample: controller initialization stores trigger range 3 and
thumb-axis range 7 — the value of `(1u << (sizeof(field) + 1)) - 1` — not
the saturated maxima 255 and 32767 the claim states. -/
theorem caps_not_saturated :
    (controller_init controller_initial).caps.Gamepad.bLeftTrigger = 3 ∧
    (controller_init controller_initial).caps.Gamepad.bLeftTrigger ≠ 255 ∧
    (controller_init controller_initial).caps.Gamepad.bRightTrigger ≠ 255 ∧
    (controller_init controller_initial).caps.Gamepad.sThumbLX = 7 ∧
    (controller_init controller_initial).caps.Gamepad.sThumbLX ≠ 32767 := by
  decide

/-- C1 (amended): after controller initialization the stored capabilities
record is the fixed static descriptor with device type gamepad, subtype
gamepad, button mask 0xFFFF, trigger bytes 3 and thumb-axis fields 7
(the value of the expression `(1u << (sizeof(field) + 1)) - 1`), and that
record is preserved by every subsequent runtime transition. -/
theorem caps_static_descriptor :
    (∀ c : xinput_controller, (controller_init c).caps = controller_check_caps_result) ∧
    controller_check_caps_result.Type_ = XINPUT_DEVTYPE_GAMEPAD ∧
    controller_check_caps_result.SubType = XINPUT_DEVSUBTYPE_GAMEPAD ∧
    controller_check_caps_result.Gamepad.wButtons = 0xffff ∧
    controller_check_caps_result.Gamepad.bLeftTrigger = 3 ∧
    controller_check_caps_result.Gamepad.bRightTrigger = 3 ∧
    controller_check_caps_result.Gamepad.sThumbLX = 7 ∧
    controller_check_caps_result.Gamepad.sThumbLY = 7 ∧
    controller_check_caps_result.Gamepad.sThumbRX = 7 ∧
    controller_check_caps_result.Gamepad.sThumbRY = 7 ∧
    (∀ s s' : Sys, Step s s' → s.ctrl.caps = controller_check_caps_result →
      s'.ctrl.caps = controller_check_caps_result) := by
  refine ⟨fun c => rfl, by decide, by decide, by decide, by decide, by decide,
    by decide, by decide, by decide, by decide, ?_⟩
  intro s s' hstep hcaps
  cases hstep with
  | recvGetGamepad gamepad_id s =>
    rcases recv_get_gamepad_caps gamepad_id s.ctrl with h | h
    · exact h.trans hcaps
    · exact h
  | recvGamepadState f s h =>
    exact (update_state_caps f s.ctrl).trans hcaps
  | getState index s =>
    rw [show ((xinput_get_state index s).2.2).ctrl.caps = s.ctrl.caps from
      congrArg xinput_controller.caps (xinput_get_state_ctrl index s)]
    exact hcaps
  | getKeystroke index s =>
    exact (getKeystroke_ctrl index s).1.trans hcaps
  | enable b s =>
    exact (enable_caps b s.ctrl).1.trans hcaps
  | destroy s =>
    exact hcaps

/-- C1 witness: the preservation step of caps_static_descriptor applied to
a concrete initialized state and a concrete GetState transition. -/
theorem caps_static_descriptor_witness :
    (controller_init controller_initial).caps = controller_check_caps_result ∧
    ((xinput_get_state 0 sys_connected).2.2).ctrl.caps = controller_check_caps_result :=
  ⟨caps_static_descriptor.1 controller_initial,
   caps_static_descriptor.2.2.2.2.2.2.2.2.2.2 sys_connected
     ((xinput_get_state 0 sys_connected).2.2) (Step.getState 0 sys_connected) (by decide)⟩

/-- C2 counterexample: with the controller connected, the first get_state
query at index 2 succeeds (index 2 becomes the effective index 0), but a
subsequent query at the different index 1 also succeeds instead of
reporting DEVICE_NOT_CONNECTED: the smaller index takes over the mapping. -/
theorem min_index_takeover :
    (xinput_get_state 2 sys_connected).1 = ERROR_SUCCESS ∧
    (xinput_get_state 1 (xinput_get_state 2 sys_connected).2.2).1 = ERROR_SUCCESS ∧
    ERROR_SUCCESS ≠ ERROR_DEVICE_NOT_CONNECTED := by
  decide

/-- C2 (amended): a get_state query at an in-range index at or below the
remembered `xinput_min_index` lowers the remembered index to it and is
treated as the single controller 0 (succeeding exactly when connected),
while a query strictly above the remembered index reports
DEVICE_NOT_CONNECTED; the remembered index is thus monotonically
non-increasing, and in particular the first index ever queried (the
remembered value starts at 3) becomes the effective index 0. -/
theorem min_index_remap (s : Sys) (index : Nat) (h : index < 4) :
    ((xinput_get_state index s).2.2).xinput_min_index = min index s.xinput_min_index ∧
    ((xinput_get_state index s).2.2).ctrl = s.ctrl ∧
    (index ≤ s.xinput_min_index →
      (xinput_get_state index s).1 =
        (if s.ctrl.connected then ERROR_SUCCESS else ERROR_DEVICE_NOT_CONNECTED)) ∧
    (s.xinput_min_index < index →
      (xinput_get_state index s).1 = ERROR_DEVICE_NOT_CONNECTED) := by
  rw [xinput_get_state_eq index s h]
  refine ⟨rfl, rfl, ?_, ?_⟩
  · intro hle
    simp [hle]
  · intro hgt
    have : ¬ index ≤ s.xinput_min_index := by omega
    simp [this]

/-- C2 witness: min_index_remap at a concrete connected state, index 2. -/
theorem min_index_remap_witness :
    ((xinput_get_state 2 sys_connected).2.2).xinput_min_index = 2 ∧
    (xinput_get_state 2 sys_connected).1 = ERROR_SUCCESS := by
  have h := min_index_remap sys_connected 2 (by decide)
  refine ⟨h.1.trans (by decide), (h.2.2.1 (by decide)).trans (by decide)⟩

/-- C4: from the just-connected all-zero state with remote id 42, one
accepted GAMEPAD_STATE frame with status 1, id 42, buttons 0x0001, dpad 4,
lx 0, ly 30000, rx 0, ry 0 makes the next get_state(0) return SUCCESS with
wButtons = A ||| DPAD_DOWN, sThumbLY = -30000 (vertical axes negated,
horizontal unchanged), both triggers 0 and packet number 1. -/
theorem scenario_state_update :
    (XInputGetState 0
      { ctrl := controller_update_state
          { status := 1, gamepad_id := 42, buttons := 0x0001, dpad := 4,
            lx := 0, ly := 30000, rx := 0, ry := 0 } ctrl_connected,
        xinput_min_index := 3 }).1 = ERROR_SUCCESS ∧
    (XInputGetState 0
      { ctrl := controller_update_state
          { status := 1, gamepad_id := 42, buttons := 0x0001, dpad := 4,
            lx := 0, ly := 30000, rx := 0, ry := 0 } ctrl_connected,
        xinput_min_index := 3 }).2.1 =
      some { dwPacketNumber := 1,
             Gamepad := { wButtons := XINPUT_GAMEPAD_A ||| XINPUT_GAMEPAD_DPAD_DOWN,
                          bLeftTrigger := 0, bRightTrigger := 0,
                          sThumbLX := 0, sThumbLY := -30000,
                          sThumbRX := 0, sThumbRY := 0 } } := by
  decide

/-- C3: an inconsistent GAMEPAD_STATE frame (status byte not 1, or id
differing from the stored remote id) processed while connected clears the
connected flag and zeroes the whole state sample (packet counter included)
and changes nothing else; the next get_state at the effective index 0 then
reports DEVICE_NOT_CONNECTED, and after the provider reconnects the
controller a zero pad is observed. -/
theorem inconsistent_frame_disconnects (c : xinput_controller) (f : GAMEPAD_STATE_frame)
    (m : Nat) (gamepad_id : Int)
    (_hconn : c.connected = true) (hbad : f.status ≠ 1 ∨ f.gamepad_id ≠ c.id)
    (hpos : 0 < gamepad_id) :
    controller_update_state f c = { c with connected := false, state := .zero } ∧
    (xinput_get_state 0 { ctrl := controller_update_state f c, xinput_min_index := m }).1 =
      ERROR_DEVICE_NOT_CONNECTED ∧
    (xinput_get_state 0
      { ctrl := recv_get_gamepad gamepad_id (controller_update_state f c),
        xinput_min_index := m }).1 = ERROR_SUCCESS ∧
    (xinput_get_state 0
      { ctrl := recv_get_gamepad gamepad_id (controller_update_state f c),
        xinput_min_index := m }).2.1 = some XINPUT_STATE.zero := by
  have h1 : controller_update_state f c = { c with connected := false, state := .zero } := by
    unfold controller_update_state
    rw [if_pos hbad]
  have hr : recv_get_gamepad gamepad_id { c with connected := false, state := XINPUT_STATE.zero } =
      controller_init { c with connected := false, state := XINPUT_STATE.zero, id := gamepad_id } := by
    unfold recv_get_gamepad
    rw [if_pos hpos]
    rfl
  refine ⟨h1, ?_, ?_, ?_⟩ <;> rw [h1]
  · rw [xinput_get_state_eq 0 _ (by omega)]
    simp
  · rw [hr, xinput_get_state_eq 0 _ (by omega)]
    simp [controller_init]
  · rw [hr, xinput_get_state_eq 0 _ (by omega)]
    simp [controller_init]

/-- C3 witness: inconsistent_frame_disconnects on a concrete connected
controller, a concrete frame with mismatching id 43, and reconnect id 42. -/
theorem inconsistent_frame_disconnects_witness :
    controller_update_state
        { status := 1, gamepad_id := 43, buttons := 0, dpad := 8,
          lx := 0, ly := 0, rx := 0, ry := 0 } ctrl_connected =
      { ctrl_connected with connected := false, state := .zero } ∧
    (xinput_get_state 0
      { ctrl := controller_update_state
          { status := 1, gamepad_id := 43, buttons := 0, dpad := 8,
            lx := 0, ly := 0, rx := 0, ry := 0 } ctrl_connected,
        xinput_min_index := 3 }).1 = ERROR_DEVICE_NOT_CONNECTED := by
  have h := inconsistent_frame_disconnects ctrl_connected
    { status := 1, gamepad_id := 43, buttons := 0, dpad := 8,
      lx := 0, ly := 0, rx := 0, ry := 0 } 3 42
    (by decide) (by decide) (by decide)
  exact ⟨h.1, h.2.1⟩

/-! ### Packet counter (C7) -/

/-- Folding a list of GAMEPAD_STATE frames through controller_update_state,
in order. -/
def run_frames (c : xinput_controller) (fs : List GAMEPAD_STATE_frame) : xinput_controller :=
  fs.foldl (fun a f => controller_update_state f a) c

lemma accepted_update_packet (f : GAMEPAD_STATE_frame) (c : xinput_controller)
    (h1 : f.status = 1) (h2 : f.gamepad_id = c.id) :
    (controller_update_state f c).state.dwPacketNumber =
      (c.state.dwPacketNumber + 1) % 2 ^ 32 := by
  unfold controller_update_state
  rw [if_neg (by simp [h1, h2])]

lemma run_frames_packet (fs : List GAMEPAD_STATE_frame) :
    ∀ c : xinput_controller, c.state.dwPacketNumber < 2 ^ 32 →
    (∀ f ∈ fs, f.status = 1 ∧ f.gamepad_id = c.id) →
    (run_frames c fs).state.dwPacketNumber =
      (c.state.dwPacketNumber + fs.length) % 2 ^ 32 := by
  induction fs with
  | nil =>
    intro c hlt _
    simp only [run_frames, List.foldl_nil, List.length_nil, Nat.add_zero]
    exact (Nat.mod_eq_of_lt hlt).symm
  | cons f fs ih =>
    intro c hlt hall
    have hf := hall f (List.mem_cons_self f fs)
    have hstep := accepted_update_packet f c hf.1 hf.2
    have htail : ∀ g ∈ fs, g.status = 1 ∧ g.gamepad_id = (controller_update_state f c).id := by
      rw [update_state_id]
      exact fun g hg => hall g (List.mem_cons_of_mem f hg)
    have hrw : run_frames c (f :: fs) = run_frames (controller_update_state f c) fs := rfl
    rw [hrw, ih (controller_update_state f c)
      (by rw [hstep]; exact Nat.mod_lt _ (by norm_num)) htail, hstep, Nat.mod_add_mod]
    congr 1
    simp [List.length_cons]
    omega

/-- C7: every accepted GAMEPAD_STATE frame (status 1, matching id)
increments the pad's 32-bit packet counter by exactly one modulo 2^32 —
strictly increasing short of wraparound — and over any sequence of
accepted frames the counter advances by the number of frames mod 2^32. -/
theorem packet_number_increments :
    (∀ (c : xinput_controller) (f : GAMEPAD_STATE_frame),
      f.status = 1 → f.gamepad_id = c.id →
      (controller_update_state f c).state.dwPacketNumber =
        (c.state.dwPacketNumber + 1) % 2 ^ 32 ∧
      (c.state.dwPacketNumber + 1 < 2 ^ 32 →
        (controller_update_state f c).state.dwPacketNumber = c.state.dwPacketNumber + 1 ∧
        c.state.dwPacketNumber < (controller_update_state f c).state.dwPacketNumber)) ∧
    (∀ (c : xinput_controller) (fs : List GAMEPAD_STATE_frame),
      c.state.dwPacketNumber < 2 ^ 32 →
      (∀ f ∈ fs, f.status = 1 ∧ f.gamepad_id = c.id) →
      (run_frames c fs).state.dwPacketNumber =
        (c.state.dwPacketNumber + fs.length) % 2 ^ 32) := by
  refine ⟨?_, fun c fs hlt hall => run_frames_packet fs c hlt hall⟩
  intro c f h1 h2
  have hstep := accepted_update_packet f c h1 h2
  refine ⟨hstep, fun hwrap => ?_⟩
  rw [hstep, Nat.mod_eq_of_lt hwrap]
  omega

/-- C7 witness: two accepted frames advance the counter from 0 to 2, and a
single accepted frame increments strictly. -/
theorem packet_number_increments_witness :
    (controller_update_state
        { status := 1, gamepad_id := 42, buttons := 0, dpad := 8,
          lx := 0, ly := 0, rx := 0, ry := 0 } ctrl_connected).state.dwPacketNumber = 1 ∧
    (run_frames ctrl_connected
        [ { status := 1, gamepad_id := 42, buttons := 0, dpad := 8,
            lx := 0, ly := 0, rx := 0, ry := 0 },
          { status := 1, gamepad_id := 42, buttons := 1, dpad := 0,
            lx := 0, ly := 0, rx := 0, ry := 0 } ]).state.dwPacketNumber = 2 := by
  have h1 := (packet_number_increments.1 ctrl_connected
    { status := 1, gamepad_id := 42, buttons := 0, dpad := 8,
      lx := 0, ly := 0, rx := 0, ry := 0 } (by decide) (by decide)).2 (by decide)
  have h2 := packet_number_increments.2 ctrl_connected
    [ { status := 1, gamepad_id := 42, buttons := 0, dpad := 8,
        lx := 0, ly := 0, rx := 0, ry := 0 },
      { status := 1, gamepad_id := 42, buttons := 1, dpad := 0,
        lx := 0, ly := 0, rx := 0, ry := 0 } ] (by decide)
    (by intro f hf; fin_cases hf <;> exact ⟨rfl, rfl⟩)
  constructor
  · rw [h1.1]
    decide
  · rw [h2]
    decide

/-- C9: XInputSetState and XInputGetKeystroke never apply the
xinput_min_index remapping: for every runtime state and every index in
{1, 2, 3} (which always passes range validation) both return
DEVICE_NOT_CONNECTED — even in a state where a prior get_state call
remapped that index so that get_state at it succeeds. -/
theorem set_state_keystroke_no_remap (s : Sys) (index : Nat)
    (hlo : 1 ≤ index) (hhi : index ≤ 3) :
    XInputSetState index s = ERROR_DEVICE_NOT_CONNECTED ∧
    (XInputGetKeystroke index s).1 = ERROR_DEVICE_NOT_CONNECTED ∧
    ((xinput_get_state index s).1 = ERROR_SUCCESS →
      XInputSetState index (xinput_get_state index s).2.2 = ERROR_DEVICE_NOT_CONNECTED ∧
      (XInputGetKeystroke index (xinput_get_state index s).2.2).1 =
        ERROR_DEVICE_NOT_CONNECTED) := by
  have hne : index ≠ 0 := by omega
  have hbeq : (index == 0) = false := by
    simp [hne]
  have hconn : ∀ c : xinput_controller, controller_is_connected index c = false := by
    intro c
    simp [controller_is_connected, hbeq]
  have hset : ∀ t : Sys, XInputSetState index t = ERROR_DEVICE_NOT_CONNECTED := by
    intro t
    unfold XInputSetState
    rw [if_neg (by simp only [XUSER_MAX_COUNT]; omega), if_neg (by simp [hconn t.ctrl])]
  have hkey : ∀ t : Sys, (XInputGetKeystroke index t).1 = ERROR_DEVICE_NOT_CONNECTED := by
    intro t
    unfold XInputGetKeystroke
    have hc1 : ¬ (XUSER_MAX_COUNT ≤ index ∧ index ≠ XUSER_INDEX_ANY) := by
      simp only [XUSER_MAX_COUNT, XUSER_INDEX_ANY]
      omega
    rw [if_neg hc1]
    have h255 : (if index ≠ XUSER_INDEX_ANY then index else 0) = index := by
      rw [if_pos]
      simp only [XUSER_INDEX_ANY]
      omega
    rw [h255, if_neg (by simp [hconn t.ctrl])]
  exact ⟨hset s, hkey s, fun _ => ⟨hset _, hkey _⟩⟩

/-- C9 witness: at a connected state, get_state(1) succeeds (index 1 got
remapped to the controller) yet SetState(1) and GetKeystroke(1) still
report DEVICE_NOT_CONNECTED. -/
theorem set_state_keystroke_no_remap_witness :
    (xinput_get_state 1 sys_connected).1 = ERROR_SUCCESS ∧
    XInputSetState 1 sys_connected = ERROR_DEVICE_NOT_CONNECTED ∧
    (XInputGetKeystroke 1 sys_connected).1 = ERROR_DEVICE_NOT_CONNECTED ∧
    XInputSetState 1 (xinput_get_state 1 sys_connected).2.2 =
      ERROR_DEVICE_NOT_CONNECTED := by
  have h := set_state_keystroke_no_remap sys_connected 1 (by decide) (by decide)
  exact ⟨by decide, h.1, h.2.1, (h.2.2 (by decide)).1⟩

/-! ### Joystick quantization helpers (C5) -/

lemma joystick_state_lt3 (v : Int) : joystick_state v < 3 := by
  unfold joystick_state
  split_ifs <;> decide

lemma js_vk_offs_inj_fin :
    ∀ x1 y1 x2 y2 : Fin 3,
    (x1.val ≠ 0 ∨ y1.val ≠ 0) → (x2.val ≠ 0 ∨ y2.val ≠ 0) →
    (x1.val, y1.val) ≠ (x2.val, y2.val) →
    js_vk_offs x1.val y1.val ≠ js_vk_offs x2.val y2.val := by
  decide

/-- On non-null quantized stick positions, the direction offset is
injective. -/
lemma js_vk_offs_inj {x1 y1 x2 y2 : Nat}
    (hx1 : x1 < 3) (hy1 : y1 < 3) (hx2 : x2 < 3) (hy2 : y2 < 3)
    (h1 : x1 ≠ 0 ∨ y1 ≠ 0) (h2 : x2 ≠ 0 ∨ y2 ≠ 0)
    (hne : (x1, y1) ≠ (x2, y2)) :
    js_vk_offs x1 y1 ≠ js_vk_offs x2 y2 :=
  js_vk_offs_inj_fin ⟨x1, hx1⟩ ⟨y1, hy1⟩ ⟨x2, hx2⟩ ⟨y2, hy2⟩ h1 h2 hne

lemma stick_vk_eq (x y : Int) (base_vk : Nat)
    (h : joystick_state x ≠ JS_STATE_OFF ∨ joystick_state y ≠ JS_STATE_OFF) :
    stick_vk x y base_vk = base_vk + js_vk_offs (joystick_state x) (joystick_state y) := by
  unfold stick_vk
  rw [if_pos h]

lemma stick_vk_ne_zero (x y : Int) (base_vk : Nat) (hb : 0 < base_vk)
    (h : joystick_state x ≠ JS_STATE_OFF ∨ joystick_state y ≠ JS_STATE_OFF) :
    stick_vk x y base_vk ≠ 0 := by
  rw [stick_vk_eq x y base_vk h]
  omega

lemma stick_vk_center (base_vk : Nat) : stick_vk 0 0 base_vk = 0 := by
  unfold stick_vk
  rw [if_neg]
  decide

/-- C5: whenever the current snapshot quantizes to a non-null direction b
and the last-delivered snapshot to a different non-null direction a (same
stick, base virtual key positive), the first poll emits a KEYUP for a's
virtual key and resets the remembered axes to (0, 0), and the second poll
emits a KEYDOWN for b's virtual key — exactly the sequence
(KEYUP a, KEYDOWN b). -/
theorem joystick_transition_events (ax ay bx b_y : Int) (base_vk : Nat)
    (hb : 0 < base_vk)
    (ha : joystick_state ax ≠ JS_STATE_OFF ∨ joystick_state ay ≠ JS_STATE_OFF)
    (hbn : joystick_state bx ≠ JS_STATE_OFF ∨ joystick_state b_y ≠ JS_STATE_OFF)
    (hab : (joystick_state ax, joystick_state ay) ≠ (joystick_state bx, joystick_state b_y)) :
    check_joystick_keystroke bx b_y ax ay base_vk =
      (ERROR_SUCCESS,
       some { VirtualKey := stick_vk ax ay base_vk, Unicode := 0,
              Flags := XINPUT_KEYSTROKE_KEYUP, UserIndex := 0, HidCode := 0 },
       0, 0) ∧
    check_joystick_keystroke bx b_y 0 0 base_vk =
      (ERROR_SUCCESS,
       some { VirtualKey := stick_vk bx b_y base_vk, Unicode := 0,
              Flags := XINPUT_KEYSTROKE_KEYDOWN, UserIndex := 0, HidCode := 0 },
       bx, b_y) := by
  have hoffs : js_vk_offs (joystick_state bx) (joystick_state b_y) ≠
      js_vk_offs (joystick_state ax) (joystick_state ay) :=
    js_vk_offs_inj (joystick_state_lt3 bx) (joystick_state_lt3 b_y)
      (joystick_state_lt3 ax) (joystick_state_lt3 ay) hbn ha (Ne.symm hab)
  have hvkne : stick_vk bx b_y base_vk ≠ stick_vk ax ay base_vk := by
    rw [stick_vk_eq _ _ _ hbn, stick_vk_eq _ _ _ ha]
    intro hcontra
    exact hoffs (Nat.add_left_cancel hcontra)
  have hane : stick_vk ax ay base_vk ≠ 0 := stick_vk_ne_zero _ _ _ hb ha
  have hbne : stick_vk bx b_y base_vk ≠ 0 := stick_vk_ne_zero _ _ _ hb hbn
  constructor
  · unfold check_joystick_keystroke
    rw [if_pos hvkne, if_pos hane]
  · unfold check_joystick_keystroke
    rw [stick_vk_center]
    rw [if_pos hbne, if_neg (fun hh => hh rfl)]

/-- C5 witness: left stick moving from UP (0, 25000) to RIGHT (25000, 0)
produces KEYUP of VK_PAD_LTHUMB_UP then KEYDOWN of VK_PAD_LTHUMB_RIGHT. -/
theorem joystick_transition_events_witness :
    check_joystick_keystroke 25000 0 0 25000 VK_PAD_LTHUMB_UP =
      (ERROR_SUCCESS,
       some { VirtualKey := 0x5820, Unicode := 0,
              Flags := XINPUT_KEYSTROKE_KEYUP, UserIndex := 0, HidCode := 0 },
       0, 0) ∧
    check_joystick_keystroke 25000 0 0 0 VK_PAD_LTHUMB_UP =
      (ERROR_SUCCESS,
       some { VirtualKey := 0x5822, Unicode := 0,
              Flags := XINPUT_KEYSTROKE_KEYDOWN, UserIndex := 0, HidCode := 0 },
       25000, 0) := by
  have h := joystick_transition_events 0 25000 25000 0 VK_PAD_LTHUMB_UP
    (by decide) (by decide) (by decide) (by decide)
  exact ⟨h.1.trans (by decide), h.2.trans (by decide)⟩

/-! ### Button keystroke scan (C6) -/

lemma check_joystick_keystroke_same (x y : Int) (base_vk : Nat) :
    check_joystick_keystroke x y x y base_vk = (ERROR_EMPTY, none, x, y) := by
  unfold check_joystick_keystroke
  rw [if_neg (fun hh => hh rfl)]

lemma guide_bne_false (w m : Nat) (hm : XINPUT_GAMEPAD_GUIDE &&& m = 0) :
    (((w ^^^ XINPUT_GAMEPAD_GUIDE) &&& m) != (w &&& m)) = false := by
  rw [Nat.and_xor_distrib_right, hm]
  simp

/-- C6: the synthesizer examines buttons in the fixed order DPAD_UP,
DPAD_DOWN, DPAD_LEFT, DPAD_RIGHT, START, BACK, L3, R3, L1, R1, A, B, X, Y;
for the first button whose current bit differs from its last-delivered bit
it emits exactly one KEYDOWN (bit now set) or KEYUP (bit now clear) event
with that button's virtual key, updates only that bit in the remembered
buttons and returns SUCCESS; a change of the GUIDE bit alone produces no
event. -/
theorem button_keystroke_scan :
    keystroke_buttons.map Prod.fst =
      [XINPUT_GAMEPAD_DPAD_UP, XINPUT_GAMEPAD_DPAD_DOWN, XINPUT_GAMEPAD_DPAD_LEFT,
       XINPUT_GAMEPAD_DPAD_RIGHT, XINPUT_GAMEPAD_START, XINPUT_GAMEPAD_BACK,
       XINPUT_GAMEPAD_LEFT_THUMB, XINPUT_GAMEPAD_RIGHT_THUMB,
       XINPUT_GAMEPAD_LEFT_SHOULDER, XINPUT_GAMEPAD_RIGHT_SHOULDER,
       XINPUT_GAMEPAD_A, XINPUT_GAMEPAD_B, XINPUT_GAMEPAD_X, XINPUT_GAMEPAD_Y] ∧
    (∀ (cur last : XINPUT_GAMEPAD) (mask vk : Nat),
      find_changed_button cur.wButtons last.wButtons = some (mask, vk) →
      check_for_keystroke cur last =
        (ERROR_SUCCESS,
         some { VirtualKey := vk, Unicode := 0,
                Flags := if cur.wButtons &&& mask ≠ 0 then XINPUT_KEYSTROKE_KEYDOWN
                         else XINPUT_KEYSTROKE_KEYUP,
                UserIndex := 0, HidCode := 0 },
         { last with wButtons := if cur.wButtons &&& mask ≠ 0 then last.wButtons ||| mask
                                 else last.wButtons &&& (0xffff ^^^ mask) })) ∧
    (∀ pad : XINPUT_GAMEPAD,
      check_for_keystroke { pad with wButtons := pad.wButtons ^^^ XINPUT_GAMEPAD_GUIDE } pad =
        (ERROR_EMPTY, none, pad)) := by
  refine ⟨rfl, ?_, ?_⟩
  · intro cur last mask vk h
    unfold check_for_keystroke
    rw [h]
    dsimp only
    split_ifs with hc <;> rfl
  · intro pad
    have hfind : find_changed_button (pad.wButtons ^^^ XINPUT_GAMEPAD_GUIDE) pad.wButtons = none := by
      rw [find_changed_button, List.find?_eq_none]
      intro p hp
      have hm : XINPUT_GAMEPAD_GUIDE &&& p.1 = 0 := by
        fin_cases hp <;> decide
      simp [guide_bne_false pad.wButtons p.1 hm]
    unfold check_for_keystroke
    rw [hfind]
    dsimp only
    rw [if_neg (by simp), if_neg (by simp)]
    rw [check_joystick_keystroke_same]
    dsimp only
    rw [if_neg (by decide), check_joystick_keystroke_same]

/-- C6 witness: pressing A from the zeroed pad emits KEYDOWN of VK_PAD_A
and sets exactly the A bit; a GUIDE-only change on a concrete pad yields
no event. -/
theorem button_keystroke_scan_witness :
    check_for_keystroke { XINPUT_GAMEPAD.zero with wButtons := 0x1000 } XINPUT_GAMEPAD.zero =
      (ERROR_SUCCESS,
       some { VirtualKey := VK_PAD_A, Unicode := 0,
              Flags := XINPUT_KEYSTROKE_KEYDOWN, UserIndex := 0, HidCode := 0 },
       { XINPUT_GAMEPAD.zero with wButtons := 0x1000 }) ∧
    check_for_keystroke { XINPUT_GAMEPAD.zero with wButtons := 0x0400 } XINPUT_GAMEPAD.zero =
      (ERROR_EMPTY, none, XINPUT_GAMEPAD.zero) := by
  have h1 := button_keystroke_scan.2.1 { XINPUT_GAMEPAD.zero with wButtons := 0x1000 }
    XINPUT_GAMEPAD.zero 0x1000 VK_PAD_A (by decide)
  have h2 := button_keystroke_scan.2.2 XINPUT_GAMEPAD.zero
  exact ⟨h1.trans (by decide), h2⟩

/-! ### Connected-implies-gamepad-subtype invariant (C10) -/

/-- Whenever the controller is connected, its capabilities record is the
one controller initialization wrote. -/
def caps_connected_inv (s : Sys) : Prop :=
  s.ctrl.connected = true → s.ctrl.caps = controller_check_caps_result

lemma step_preserves_caps_inv {s s' : Sys} (h : Step s s')
    (hinv : caps_connected_inv s) : caps_connected_inv s' := by
  cases h with
  | recvGetGamepad gamepad_id s =>
    intro hc
    rcases recv_get_gamepad_connected_caps gamepad_id s.ctrl hc with h1 | ⟨h2, h3⟩
    · exact h1
    · exact h3.trans (hinv h2)
  | recvGamepadState f s hsc =>
    intro hc
    exact (update_state_caps f s.ctrl).trans (hinv (update_state_connected f s.ctrl hc))
  | getState index s =>
    intro hc
    rw [show ((xinput_get_state index s).2.2).ctrl = s.ctrl from xinput_get_state_ctrl index s]
      at hc ⊢
    exact hinv hc
  | getKeystroke index s =>
    intro hc
    have hk := getKeystroke_ctrl index s
    rw [hk.1]
    exact hinv (hk.2 ▸ hc)
  | enable b s =>
    intro hc
    have he := enable_caps b s.ctrl
    rw [he.1]
    exact hinv (he.2 ▸ hc)
  | destroy s =>
    intro hc
    exact absurd hc (by simp [controller_destroy])

lemma reachable_caps_inv {s : Sys} (h : Reachable s) : caps_connected_inv s := by
  unfold Reachable at h
  induction h with
  | refl =>
    intro hc
    exact absurd hc (by decide)
  | tail hsteps hstep ih =>
    exact step_preserves_caps_inv hstep ih

/-- C10: in every reachable runtime state in which the controller is
connected, the capabilities SubType equals the gamepad subtype (controller
initialization always runs before connected becomes true), so the
DEVICE_NOT_CONNECTED branch of XInputGetCapabilitiesEx guarded by the
XINPUT_FLAG_GAMEPAD test is unreachable and the call (at the connected
index 0, any flags) returns SUCCESS with the stored capabilities plus
vendor id 0x045E and product id 0x02A1. -/
theorem caps_ex_always_success (s : Sys) (hreach : Reachable s)
    (hconn : s.ctrl.connected = true) :
    s.ctrl.caps.SubType = XINPUT_DEVSUBTYPE_GAMEPAD ∧
    ∀ flags : Nat, XInputGetCapabilitiesEx 0 flags s =
      (ERROR_SUCCESS,
       some { Capabilities := s.ctrl.caps, VendorId := 0x045E, ProductId := 0x02A1 }) := by
  have hcaps := reachable_caps_inv hreach hconn
  have hsub : s.ctrl.caps.SubType = XINPUT_DEVSUBTYPE_GAMEPAD := by
    rw [hcaps]
    decide
  refine ⟨hsub, fun flags => ?_⟩
  unfold XInputGetCapabilitiesEx
  rw [if_neg (by decide : ¬ (XUSER_MAX_COUNT ≤ 0)),
    if_pos (by simp [controller_is_connected, hconn]),
    if_neg (fun hcontra => hcontra.2 hsub)]

/-- C10 witness: the reachable state right after the provider announced
gamepad 42, queried with the XINPUT_FLAG_GAMEPAD flag set. -/
theorem caps_ex_always_success_witness :
    (XInputGetCapabilitiesEx 0 1 sys_connected).1 = ERROR_SUCCESS ∧
    (XInputGetCapabilitiesEx 0 1 sys_connected).2 =
      some { Capabilities := controller_check_caps_result,
             VendorId := 0x045E, ProductId := 0x02A1 } := by
  have hreach : Reachable sys_connected :=
    Relation.ReflTransGen.single (Step.recvGetGamepad 42 sys_initial)
  have h := caps_ex_always_success sys_connected hreach (by decide)
  constructor
  · rw [h.2 1]
  · rw [h.2 1]
    decide

end XInputShim
